import Mathlib

/-!
Shallow embedding of src/FTPserver.py (a minimal FTP control-channel command
processor) and verification of the specification's claims about it.

The Python module keeps three pieces of per-session state, threaded through
`handle_ftp_command`: `user_authenticated : bool` (set when a syntactically
valid USER command has been received), `retr_counter : int` (number of
completed retrievals) and `port_set : bool` (set when a syntactically valid
PORT command has been received).  `handle_ftp_command` dispatches on the
uppercased input with `startswith`, re-validates the stripped line against a
per-verb regular expression, and returns the updated state together with one
reply string.

Modelling conventions:
- strings are handled as `List Char`; Python `str.upper`, `str.strip` and
  `str.split()` are reproduced for the ASCII range (the protocol traffic the
  program handles is ASCII; Python's versions agree there);
- each `re.match` call is reproduced by a dedicated matcher.  Every pattern in
  the source has the form `^(VERB)\s+BODY\r\n$` with IGNORECASE.  Because the
  input handed to the matchers is always a stripped line with `"\r\n"`
  appended (so it neither starts nor ends with whitespace before the
  terminator), maximal-munch for `\s+` and for each `\d{1,3}` is equivalent to
  the backtracking search performed by `re.match`, and `$` is equivalent to
  end-of-input; the matchers below use maximal munch;
- `os.path.exists` is modelled by a predicate `fileExists : String → Bool`
  passed as a parameter.  The archival side effect of RETR
  (`os.makedirs` plus `shutil.copy`) can raise in the source even after the
  existence check succeeds (for example when the path is a directory,
  `os.path.exists` is true and `shutil.copy` raises IsADirectoryError), and
  the exception then propagates uncaught: no reply is produced and the loop
  dies.  Its success or failure is modelled by a second predicate
  `copyOk : String → Bool`, and `handle_retr_command` returns `none` exactly
  on that uncaught-exception path.  `handle_ftp_command_full` is the complete
  model of the dispatcher over both predicates; `handle_ftp_command` is its
  restriction to inputs on which the archival step does not fault (proved in
  `full_const_true_total` and `full_some_total`).  The `sys.stdout` logging is
  an external side effect with no influence on state or replies and is not
  modelled.
-/

namespace FTPserver

/-- Characters treated as whitespace by Python str.strip, str.split and the
regex class backslash-s, restricted to the ASCII range. -/
def isPyWs (c : Char) : Bool :=
  c == ' ' || c == '\t' || c == '\n' || c == '\x0b' || c == '\x0c' || c == '\r'

/-- Python str.strip: remove leading and trailing whitespace. -/
def pyStripList (cs : List Char) : List Char :=
  ((cs.dropWhile isPyWs).reverse.dropWhile isPyWs).reverse

/-- Python str.upper on an ASCII string. -/
def pyUpperList (cs : List Char) : List Char := cs.map Char.toUpper

/-- Helper for `splitWs`: the accumulator holds the current token reversed. -/
def splitWsAux : List Char → List Char → List (List Char)
  | [], acc => if acc.isEmpty then [] else [acc.reverse]
  | c :: cs, acc =>
    if isPyWs c then
      if acc.isEmpty then splitWsAux cs [] else acc.reverse :: splitWsAux cs []
    else splitWsAux cs (c :: acc)

/-- Python str.split() with no argument: split on whitespace runs, dropping
empty tokens. -/
def splitWs (cs : List Char) : List (List Char) := splitWsAux cs []

/-- Python str.startswith, on char lists (first the string, then the pattern). -/
def listStartsWith : List Char → List Char → Bool
  | _, [] => true
  | [], _ :: _ => false
  | c :: cs, p :: ps => c == p && listStartsWith cs ps

/-- Python substring containment test (the `in` operator on str). -/
def containsSub (pat : List Char) : List Char → Bool
  | [] => pat.isEmpty
  | c :: cs => listStartsWith (c :: cs) pat || containsSub pat cs

/-- Consume a verb of the regex patterns case-insensitively (IGNORECASE). -/
def dropVerbCi : List Char → List Char → Option (List Char)
  | [], cs => some cs
  | _ :: _, [] => none
  | v :: vs, c :: cs => if c.toUpper == v.toUpper then dropVerbCi vs cs else none

/-- The regex fragment backslash-s-plus: at least one whitespace character,
consumed by maximal munch. -/
def dropWs1 (cs : List Char) : Option (List Char) :=
  match cs with
  | c :: rest => if isPyWs c then some (rest.dropWhile isPyWs) else none
  | [] => none

/-- The trailing regex fragment: a literal CR LF followed by the end of the
input; returns the characters before the terminator. -/
def splitCRLFEnd (cs : List Char) : Option (List Char) :=
  match cs.reverse with
  | '\n' :: '\r' :: rest => some rest.reverse
  | _ => none

/-- The character class of the USER pattern: `[a-zA-Z0-9_.-]`. -/
def isUserChar (c : Char) : Bool :=
  c.isAlphanum || c == '_' || c == '.' || c == '-'

/-- The character class `[^\r\n]` of the PASS and RETR patterns. -/
def isLineChar (c : Char) : Bool :=
  !(c == '\r' || c == '\n')

/-- Matcher for `^(USER)\s+([a-zA-Z0-9_.-]+)\r\n$` with IGNORECASE. -/
def matchUser (cs : List Char) : Bool :=
  ((dropVerbCi ['U', 'S', 'E', 'R'] cs).bind fun r1 =>
   (dropWs1 r1).bind fun r2 =>
   (splitCRLFEnd r2).map fun tok => !tok.isEmpty && tok.all isUserChar).getD false

/-- Matcher for `^(PASS)\s+([^\r\n]+)\r\n$` with IGNORECASE. -/
def matchPass (cs : List Char) : Bool :=
  ((dropVerbCi ['P', 'A', 'S', 'S'] cs).bind fun r1 =>
   (dropWs1 r1).bind fun r2 =>
   (splitCRLFEnd r2).map fun tok => !tok.isEmpty && tok.all isLineChar).getD false

/-- Matcher for `^(RETR)\s+([^\r\n]+)\r\n$` with IGNORECASE, returning the
second group (the file path). -/
def matchRetr (cs : List Char) : Option (List Char) :=
  (dropVerbCi ['R', 'E', 'T', 'R'] cs).bind fun r1 =>
  (dropWs1 r1).bind fun r2 =>
  (splitCRLFEnd r2).bind fun tok =>
  if !tok.isEmpty && tok.all isLineChar then some tok else none

/-- Matcher for `^(TYPE)\s+([A-Z])\r\n$` with IGNORECASE (so the class also
admits lowercase letters), returning the second group. -/
def matchType (cs : List Char) : Option Char :=
  (dropVerbCi ['T', 'Y', 'P', 'E'] cs).bind fun r1 =>
  (dropWs1 r1).bind fun r2 =>
  match r2 with
  | [c, '\r', '\n'] => if c.isAlpha then some c else none
  | _ => none

/-- The regex fragment `\d{1,3}` followed by a delimiter outside the class:
a maximal run of one to three decimal digits. -/
def parseOctet (cs : List Char) : Option (List Char × List Char) :=
  let t := cs.takeWhile Char.isDigit
  if 1 ≤ t.length && t.length ≤ 3 then some (t, cs.dropWhile Char.isDigit)
  else none

/-- Consume one expected literal character. -/
def expectCh (c : Char) (cs : List Char) : Option (List Char) :=
  match cs with
  | d :: rest => if d == c then some rest else none
  | [] => none

/-- The regex fragment `,(\d{1,3})` repeated a given number of times:
returns the captured digit groups and the remaining input. -/
def parseCommaOctets : Nat → List Char → Option (List (List Char) × List Char)
  | 0, cs => some ([], cs)
  | n + 1, cs =>
    match expectCh ',' cs with
    | none => none
    | some r =>
      match parseOctet r with
      | none => none
      | some (g, rest) =>
        match parseCommaOctets n rest with
        | none => none
        | some (gs, fin) => some (g :: gs, fin)

/-- Matcher for
`^(PORT)\s+(\d{1,3}),(\d{1,3}),(\d{1,3}),(\d{1,3}),(\d{1,3}),(\d{1,3})\r\n$`
with IGNORECASE, returning groups two to seven. -/
def matchPort (cs : List Char) :
    Option (List Char × List Char × List Char × List Char × List Char × List Char) :=
  (dropVerbCi ['P', 'O', 'R', 'T'] cs).bind fun r1 =>
  (dropWs1 r1).bind fun r2 =>
  (parseOctet r2).bind fun p1 =>
  (parseCommaOctets 5 p1.2).bind fun pr =>
  match pr.1 with
  | [g2, g3, g4, g5, g6] =>
    (expectCh '\r' pr.2).bind fun u1 =>
    (expectCh '\n' u1).bind fun u2 =>
    if u2.isEmpty then some (p1.1, g2, g3, g4, g5, g6) else none
  | _ => none

/-- Python int() on a string of decimal digits. -/
def digitsToNat (cs : List Char) : Nat :=
  cs.foldl (fun n c => 10 * n + (c.toNat - '0'.toNat)) 0

/-- Translation of `parse_ftp_input_user_command` (src/FTPserver.py lines 7-23). -/
def parse_ftp_input_user_command (ftp_input_data : List Char) : String :=
  if matchUser ftp_input_data then "331 Guest access OK, send password.\r\n"
  else "501 Syntax error in parameter.\r\n"

/-- Translation of `handle_pass_command` (src/FTPserver.py lines 26-45). -/
def handle_pass_command (ftp_input_data : List Char) (user_authenticated : Bool) : String :=
  if !user_authenticated then "503 Bad sequence of commands.\r\n"
  else if matchPass ftp_input_data then "230 Guest login OK.\r\n"
  else "501 Syntax error in parameter.\r\n"

/-- Translation of `handle_syst_command` (src/FTPserver.py lines 48-55). -/
def handle_syst_command : String := "215 UNIX Type: L8.\r\n"

/-- Translation of `handle_port_command` (src/FTPserver.py lines 58-75):
returns the joined dotted address of groups two to five, the port decoded
from groups six and seven, and the reply. -/
def handle_port_command (ftp_input_data : List Char) : Option String × Option Nat × String :=
  match matchPort ftp_input_data with
  | some (g2, g3, g4, g5, g6, g7) =>
    (some (String.mk g2 ++ "." ++ String.mk g3 ++ "." ++ String.mk g4 ++ "." ++ String.mk g5),
     some ((digitsToNat g6) <<< 8 + digitsToNat g7),
     "200 Port command successful.\r\n")
  | none => (none, none, "501 Syntax error in parameter.\r\n")

/-- Translation of `handle_retr_command` (src/FTPserver.py lines 78-107).
The filesystem test `os.path.exists` is modelled by the predicate
`fileExists`.  After a successful existence check the source runs
`os.makedirs` (when needed) and `shutil.copy`; whether that archival step
succeeds for the named path is modelled by the predicate `copyOk`.  When it
fails (for example the path is a directory, so the existence check passes
and `shutil.copy` raises), the exception propagates uncaught and no reply is
produced: that path is `none`. -/
def handle_retr_command (fileExists copyOk : String → Bool)
    (ftp_input_data : List Char) (retr_counter : Nat) (port_set : Bool) :
    Option (Nat × String) :=
  if !port_set then
    some (retr_counter, "503 Bad sequence of commands. Use PORT before RETR.\r\n")
  else
    match matchRetr ftp_input_data with
    | some tok =>
      if fileExists (String.mk tok) then
        if copyOk (String.mk tok) then
          some (retr_counter + 1,
            "150 File status okay.\r\n250 Requested file action completed.\r\n")
        else none
      else some (retr_counter, "550 Requested action not taken. File unavailable.\r\n")
    | none => some (retr_counter, "501 Syntax error in parameter.\r\n")

/-- The RETR handler on the inputs where the archival step does not fault:
the reply computation of src/FTPserver.py lines 78-107 with the
`os.makedirs`/`shutil.copy` step succeeding.  It agrees with
`handle_retr_command` whenever the latter returns a value (lemmas
`retr_const_true` and `retr_full_some`). -/
def handle_retr_command_ok (fileExists : String → Bool) (ftp_input_data : List Char)
    (retr_counter : Nat) (port_set : Bool) : Nat × String :=
  if !port_set then
    (retr_counter, "503 Bad sequence of commands. Use PORT before RETR.\r\n")
  else
    match matchRetr ftp_input_data with
    | some tok =>
      if fileExists (String.mk tok) then
        (retr_counter + 1, "150 File status okay.\r\n250 Requested file action completed.\r\n")
      else (retr_counter, "550 Requested action not taken. File unavailable.\r\n")
    | none => (retr_counter, "501 Syntax error in parameter.\r\n")

/-- Translation of `handle_type_command` (src/FTPserver.py lines 110-125):
the reply is 200 only when the matched group equals the uppercase letter I
(the comparison in the source is case-sensitive). -/
def handle_type_command (ftp_input_data : List Char) : String :=
  match matchType ftp_input_data with
  | some c => if c == 'I' then "200 Type set to I.\r\n" else "501 Syntax error in parameter.\r\n"
  | none => "501 Syntax error in parameter.\r\n"

/-- Translation of `handle_noop_command` (src/FTPserver.py lines 128-135). -/
def handle_noop_command : String := "200 Command okay.\r\n"

/-- Translation of `handle_quit_command` (src/FTPserver.py lines 138-145). -/
def handle_quit_command : String := "200 Command OK.\r\n"

/-- The protocol line terminator appended before each regex check
(`command.strip() + "\r\n"` in the source). -/
def CRLF : List Char := ['\r', '\n']

/-- Translation of `handle_ftp_command` (src/FTPserver.py lines 148-217) on
the inputs where the RETR archival step does not fault (the complete model
is `handle_ftp_command_full` below).  Every verb of the fixed set has four
letters, so the chain of `command_upper.startswith(...)` tests is dispatched
here on the first four characters of the uppercased input.  The
`sys.stdout.write` logging of the source is an external side effect and is
not modelled. -/
def handle_ftp_command (fileExists : String → Bool) (command : String)
    (user_authenticated : Bool) (retr_counter : Nat) (port_set : Bool) :
    Bool × Nat × Bool × String :=
  if (pyUpperList command.data).take 4 = ['U', 'S', 'E', 'R'] then
    if (splitWs (pyStripList command.data)).length < 2 then
      (user_authenticated, retr_counter, port_set, "501 Syntax error in parameter.\r\n")
    else
      if containsSub ['3', '3', '1']
          (parse_ftp_input_user_command (pyStripList command.data ++ CRLF)).data then
        (true, retr_counter, port_set,
          parse_ftp_input_user_command (pyStripList command.data ++ CRLF))
      else
        (user_authenticated, retr_counter, port_set,
          parse_ftp_input_user_command (pyStripList command.data ++ CRLF))
  else if (pyUpperList command.data).take 4 = ['P', 'A', 'S', 'S'] then
    if (splitWs (pyStripList command.data)).length < 2 then
      (user_authenticated, retr_counter, port_set, "501 Syntax error in parameter.\r\n")
    else
      (user_authenticated, retr_counter, port_set,
        handle_pass_command (pyStripList command.data ++ CRLF) user_authenticated)
  else if (pyUpperList command.data).take 4 = ['S', 'Y', 'S', 'T'] then
    (user_authenticated, retr_counter, port_set, handle_syst_command)
  else if (pyUpperList command.data).take 4 = ['T', 'Y', 'P', 'E'] then
    if (splitWs (pyStripList command.data)).length < 2 then
      (user_authenticated, retr_counter, port_set, "501 Syntax error in parameter.\r\n")
    else
      (user_authenticated, retr_counter, port_set,
        handle_type_command (pyStripList command.data ++ CRLF))
  else if (pyUpperList command.data).take 4 = ['P', 'O', 'R', 'T'] then
    if (splitWs (pyStripList command.data)).length < 2 then
      (user_authenticated, retr_counter, port_set, "501 Syntax error in parameter.\r\n")
    else
      if containsSub ['2', '0', '0']
          (handle_port_command (pyStripList command.data ++ CRLF)).2.2.data then
        (user_authenticated, retr_counter, true,
          (handle_port_command (pyStripList command.data ++ CRLF)).2.2)
      else
        (user_authenticated, retr_counter, port_set,
          (handle_port_command (pyStripList command.data ++ CRLF)).2.2)
  else if (pyUpperList command.data).take 4 = ['R', 'E', 'T', 'R'] then
    if (splitWs (pyStripList command.data)).length < 2 then
      (user_authenticated, retr_counter, port_set, "501 Syntax error in parameter.\r\n")
    else
      (user_authenticated,
        (handle_retr_command_ok fileExists (pyStripList command.data ++ CRLF)
          retr_counter port_set).1,
        port_set,
        (handle_retr_command_ok fileExists (pyStripList command.data ++ CRLF)
          retr_counter port_set).2)
  else if (pyUpperList command.data).take 4 = ['Q', 'U', 'I', 'T'] then
    (user_authenticated, retr_counter, port_set, handle_quit_command)
  else if (pyUpperList command.data).take 4 = ['N', 'O', 'O', 'P'] then
    (user_authenticated, retr_counter, port_set, handle_noop_command)
  else
    (user_authenticated, retr_counter, port_set, "500 Syntax error, command unrecognized.\r\n")

/-- The complete model of `handle_ftp_command` (src/FTPserver.py lines
148-217) over both filesystem predicates: same dispatch as
`handle_ftp_command`, except that the RETR branch runs the fallible
`handle_retr_command`, whose `none` (the archival step raising after a
successful existence check) propagates: the result `none` models the
uncaught exception, which produces no reply and kills the command loop. -/
def handle_ftp_command_full (fileExists copyOk : String → Bool) (command : String)
    (user_authenticated : Bool) (retr_counter : Nat) (port_set : Bool) :
    Option (Bool × Nat × Bool × String) :=
  if (pyUpperList command.data).take 4 = ['U', 'S', 'E', 'R'] then
    if (splitWs (pyStripList command.data)).length < 2 then
      some (user_authenticated, retr_counter, port_set,
        "501 Syntax error in parameter.\r\n")
    else
      if containsSub ['3', '3', '1']
          (parse_ftp_input_user_command (pyStripList command.data ++ CRLF)).data then
        some (true, retr_counter, port_set,
          parse_ftp_input_user_command (pyStripList command.data ++ CRLF))
      else
        some (user_authenticated, retr_counter, port_set,
          parse_ftp_input_user_command (pyStripList command.data ++ CRLF))
  else if (pyUpperList command.data).take 4 = ['P', 'A', 'S', 'S'] then
    if (splitWs (pyStripList command.data)).length < 2 then
      some (user_authenticated, retr_counter, port_set,
        "501 Syntax error in parameter.\r\n")
    else
      some (user_authenticated, retr_counter, port_set,
        handle_pass_command (pyStripList command.data ++ CRLF) user_authenticated)
  else if (pyUpperList command.data).take 4 = ['S', 'Y', 'S', 'T'] then
    some (user_authenticated, retr_counter, port_set, handle_syst_command)
  else if (pyUpperList command.data).take 4 = ['T', 'Y', 'P', 'E'] then
    if (splitWs (pyStripList command.data)).length < 2 then
      some (user_authenticated, retr_counter, port_set,
        "501 Syntax error in parameter.\r\n")
    else
      some (user_authenticated, retr_counter, port_set,
        handle_type_command (pyStripList command.data ++ CRLF))
  else if (pyUpperList command.data).take 4 = ['P', 'O', 'R', 'T'] then
    if (splitWs (pyStripList command.data)).length < 2 then
      some (user_authenticated, retr_counter, port_set,
        "501 Syntax error in parameter.\r\n")
    else
      if containsSub ['2', '0', '0']
          (handle_port_command (pyStripList command.data ++ CRLF)).2.2.data then
        some (user_authenticated, retr_counter, true,
          (handle_port_command (pyStripList command.data ++ CRLF)).2.2)
      else
        some (user_authenticated, retr_counter, port_set,
          (handle_port_command (pyStripList command.data ++ CRLF)).2.2)
  else if (pyUpperList command.data).take 4 = ['R', 'E', 'T', 'R'] then
    if (splitWs (pyStripList command.data)).length < 2 then
      some (user_authenticated, retr_counter, port_set,
        "501 Syntax error in parameter.\r\n")
    else
      match handle_retr_command fileExists copyOk (pyStripList command.data ++ CRLF)
          retr_counter port_set with
      | some r => some (user_authenticated, r.1, port_set, r.2)
      | none => none
  else if (pyUpperList command.data).take 4 = ['Q', 'U', 'I', 'T'] then
    some (user_authenticated, retr_counter, port_set, handle_quit_command)
  else if (pyUpperList command.data).take 4 = ['N', 'O', 'O', 'P'] then
    some (user_authenticated, retr_counter, port_set, handle_noop_command)
  else
    some (user_authenticated, retr_counter, port_set,
      "500 Syntax error, command unrecognized.\r\n")

/-- Archival-step model in which the copy fails for every path (for example
because the named path is a directory: `os.path.exists` is true and
`shutil.copy` raises IsADirectoryError). -/
def copyNever : String → Bool := fun _ => false

/-- Processing of a sequence of input lines from an initial session state, as
performed by the main loop (src/FTPserver.py lines 219-232): the final state
together with the list of replies, in order. -/
def run (fileExists : String → Bool) : List String → Bool → Nat → Bool →
    Bool × Nat × Bool × List String
  | [], ua, rc, ps => (ua, rc, ps, [])
  | cmd :: cmds, ua, rc, ps =>
    let r := handle_ftp_command fileExists cmd ua rc ps
    let rest := run fileExists cmds r.1 r.2.1 r.2.2.1
    (rest.1, rest.2.1, rest.2.2.1, r.2.2.2 :: rest.2.2.2)

/-- Filesystem model in which exactly the path existing.txt exists. -/
def fsExisting : String → Bool := fun p => p == "existing.txt"

/-- Filesystem model in which no path exists. -/
def fsNone : String → Bool := fun _ => false

/-- The complete catalog of reply strings occurring in src/FTPserver.py. -/
def replyCatalog : List String :=
  ["331 Guest access OK, send password.\r\n",
   "501 Syntax error in parameter.\r\n",
   "503 Bad sequence of commands.\r\n",
   "230 Guest login OK.\r\n",
   "215 UNIX Type: L8.\r\n",
   "200 Port command successful.\r\n",
   "503 Bad sequence of commands. Use PORT before RETR.\r\n",
   "150 File status okay.\r\n250 Requested file action completed.\r\n",
   "550 Requested action not taken. File unavailable.\r\n",
   "200 Type set to I.\r\n",
   "200 Command okay.\r\n",
   "200 Command OK.\r\n",
   "500 Syntax error, command unrecognized.\r\n"]

/-- Split one CRLF-terminated line off the front: the text before the first
CR LF pair and the remainder after it. -/
def takeToCRLF : List Char → Option (List Char × List Char)
  | [] => none
  | '\r' :: '\n' :: rest => some ([], rest)
  | c :: rest =>
    match takeToCRLF rest with
    | some (t, r) => some (c :: t, r)
    | none => none

/-- Count how many well-formed reply lines (three decimal digits, a space,
text, CR LF) make up the input; `none` if the input is not exactly a
sequence of such lines.  The first argument is recursion fuel. -/
def countReplyLines : Nat → List Char → Option Nat
  | _, [] => some 0
  | 0, _ :: _ => none
  | fuel + 1, d₁ :: d₂ :: d₃ :: ' ' :: rest =>
    if d₁.isDigit && d₂.isDigit && d₃.isDigit then
      match takeToCRLF rest with
      | some (_, r) =>
        match countReplyLines fuel r with
        | some n => some (n + 1)
        | none => none
      | none => none
    else none
  | _ + 1, _ => none

/-- A string is a reply sequence when it consists of one or more lines, each
a three-digit code, a space, text, and the CR LF terminator. -/
def isReplySequence (s : String) : Bool :=
  match countReplyLines s.data.length s.data with
  | some n => decide (1 ≤ n)
  | none => false

/-- A command line that the dispatcher treats as a syntactically valid PORT
command: uppercases to the PORT verb, has a parameter token, and its stripped
form with the terminator matches the PORT pattern. -/
def isValidPORT (cmd : String) : Bool :=
  ((pyUpperList cmd.data).take 4 == ['P', 'O', 'R', 'T']) &&
  Nat.ble 2 (splitWs (pyStripList cmd.data)).length &&
  (matchPort (pyStripList cmd.data ++ CRLF)).isSome

/-! Helper lemmas about the character classes and the list utilities. -/

theorem isPyWs_cases {c : Char} (h : isPyWs c = true) :
    c = ' ' ∨ c = '\t' ∨ c = '\n' ∨ c = '\x0b' ∨ c = '\x0c' ∨ c = '\r' := by
  simp only [isPyWs, Bool.or_eq_true, beq_iff_eq] at h
  tauto

theorem digit_not_ws {c : Char} (h : c.isDigit = true) : isPyWs c = false := by
  by_contra hne
  rw [Bool.not_eq_false] at hne
  rcases isPyWs_cases hne with rfl | rfl | rfl | rfl | rfl | rfl <;> exact absurd h (by decide)

theorem userChar_not_ws {c : Char} (h : isUserChar c = true) : isPyWs c = false := by
  by_contra hne
  rw [Bool.not_eq_false] at hne
  rcases isPyWs_cases hne with rfl | rfl | rfl | rfl | rfl | rfl <;> exact absurd h (by decide)

theorem alpha_not_ws {c : Char} (h : c.isAlpha = true) : isPyWs c = false := by
  by_contra hne
  rw [Bool.not_eq_false] at hne
  rcases isPyWs_cases hne with rfl | rfl | rfl | rfl | rfl | rfl <;> exact absurd h (by decide)

theorem comma_not_digit : (',' : Char).isDigit = false := by decide

theorem takeWhile_append_of_all {p : Char → Bool} {l₁ : List Char} (l₂ : List Char)
    (h : ∀ c ∈ l₁, p c = true) :
    (l₁ ++ l₂).takeWhile p = l₁ ++ l₂.takeWhile p := by
  induction l₁ with
  | nil => simp
  | cons a t ih =>
    have ha : p a = true := h a (List.mem_cons_self a t)
    simp only [List.cons_append, List.takeWhile_cons_of_pos ha]
    rw [ih fun c hc => h c (List.mem_cons_of_mem a hc)]

theorem dropWhile_append_of_all {p : Char → Bool} {l₁ : List Char} (l₂ : List Char)
    (h : ∀ c ∈ l₁, p c = true) :
    (l₁ ++ l₂).dropWhile p = l₂.dropWhile p := by
  induction l₁ with
  | nil => simp
  | cons a t ih =>
    have ha : p a = true := h a (List.mem_cons_self a t)
    simp only [List.cons_append, List.dropWhile_cons_of_pos ha]
    exact ih fun c hc => h c (List.mem_cons_of_mem a hc)

theorem parseOctet_group {g : List Char} (c : Char) (t : List Char)
    (hne : g ≠ []) (hdig : ∀ x ∈ g, x.isDigit = true) (hlen : g.length ≤ 3)
    (hc : c.isDigit = false) :
    parseOctet (g ++ c :: t) = some (g, c :: t) := by
  have htake : (g ++ c :: t).takeWhile Char.isDigit = g := by
    rw [takeWhile_append_of_all _ hdig, List.takeWhile_cons_of_neg (by simp [hc]),
      List.append_nil]
  have hdrop : (g ++ c :: t).dropWhile Char.isDigit = c :: t := by
    rw [dropWhile_append_of_all _ hdig, List.dropWhile_cons_of_neg (by simp [hc])]
  have hpos : 1 ≤ g.length := List.length_pos.mpr hne
  unfold parseOctet
  rw [htake, hdrop]
  simp [hpos, hlen]

theorem splitWsAux_nonws_all {l : List Char} (r acc : List Char)
    (h : ∀ c ∈ l, isPyWs c = false) :
    splitWsAux (l ++ r) acc = splitWsAux r (l.reverse ++ acc) := by
  induction l generalizing acc with
  | nil => simp
  | cons a t ih =>
    have ha : isPyWs a = false := h a (List.mem_cons_self a t)
    simp only [List.cons_append, splitWsAux, ha, Bool.false_eq_true, if_false, List.append_eq]
    rw [ih (a :: acc) fun c hc => h c (List.mem_cons_of_mem a hc)]
    simp

theorem splitWsAux_nil_of_all {l : List Char} (h : ∀ c ∈ l, isPyWs c = false)
    (hne : l ≠ []) : splitWsAux l [] = [l] := by
  have := splitWsAux_nonws_all ([] : List Char) ([] : List Char) h
  rw [List.append_nil] at this
  rw [this]
  simp [splitWsAux, hne]

/-! Computation lemmas for the matchers on well-formed constructed inputs. -/

theorem dropVerbCi_user (xs : List Char) :
    dropVerbCi ['U', 'S', 'E', 'R'] ('U' :: 'S' :: 'E' :: 'R' :: xs) = some xs := rfl

theorem dropVerbCi_port (xs : List Char) :
    dropVerbCi ['P', 'O', 'R', 'T'] ('P' :: 'O' :: 'R' :: 'T' :: xs) = some xs := rfl

theorem dropVerbCi_type (xs : List Char) :
    dropVerbCi ['T', 'Y', 'P', 'E'] ('T' :: 'Y' :: 'P' :: 'E' :: xs) = some xs := rfl

theorem dropWs1_space {l : List Char} (h : ∃ c t, l = c :: t ∧ isPyWs c = false) :
    dropWs1 (' ' :: l) = some l := by
  obtain ⟨c, t, rfl, hc⟩ := h
  show some ((c :: t).dropWhile isPyWs) = some (c :: t)
  rw [List.dropWhile_cons_of_neg (by simp [hc])]

theorem splitCRLFEnd_append (tok : List Char) :
    splitCRLFEnd (tok ++ ['\r', '\n']) = some tok := by
  unfold splitCRLFEnd
  rw [show (tok ++ ['\r', '\n']).reverse = '\n' :: '\r' :: tok.reverse by simp]
  show some tok.reverse.reverse = some tok
  rw [List.reverse_reverse]

theorem expectCh_same (c : Char) (t : List Char) : expectCh c (c :: t) = some t := by
  simp [expectCh]

theorem matchUser_valid (tok : List Char) (hne : tok ≠ [])
    (htok : ∀ c ∈ tok, isUserChar c = true) :
    matchUser ('U' :: 'S' :: 'E' :: 'R' :: ' ' :: (tok ++ ['\r', '\n'])) = true := by
  have hhead : ∃ c t, tok ++ ['\r', '\n'] = c :: t ∧ isPyWs c = false := by
    cases tok with
    | nil => exact absurd rfl hne
    | cons c t =>
      exact ⟨c, t ++ ['\r', '\n'], by simp,
        userChar_not_ws (htok c (List.mem_cons_self c t))⟩
  simp only [matchUser, dropVerbCi_user, Option.some_bind, dropWs1_space hhead,
    splitCRLFEnd_append, Option.map_some', Option.getD_some]
  cases tok with
  | nil => exact absurd rfl hne
  | cons c t =>
    simp only [List.isEmpty_cons, Bool.not_false, Bool.true_and, List.all_eq_true]
    exact htok

theorem parseCommaOctets_cons (n : Nat) {g : List Char} (c : Char) (t : List Char)
    (hne : g ≠ []) (hdig : ∀ x ∈ g, x.isDigit = true) (hlen : g.length ≤ 3)
    (hc : c.isDigit = false) :
    parseCommaOctets (n + 1) (',' :: (g ++ c :: t)) =
      (parseCommaOctets n (c :: t)).map fun pr => (g :: pr.1, pr.2) := by
  simp only [parseCommaOctets, expectCh_same, parseOctet_group c t hne hdig hlen hc]
  cases parseCommaOctets n (c :: t) with
  | none => rfl
  | some pr => rfl

theorem matchPort_valid (g1 g2 g3 g4 g5 g6 : List Char)
    (h1 : g1 ≠ []) (hd1 : ∀ x ∈ g1, x.isDigit = true) (hl1 : g1.length ≤ 3)
    (h2 : g2 ≠ []) (hd2 : ∀ x ∈ g2, x.isDigit = true) (hl2 : g2.length ≤ 3)
    (h3 : g3 ≠ []) (hd3 : ∀ x ∈ g3, x.isDigit = true) (hl3 : g3.length ≤ 3)
    (h4 : g4 ≠ []) (hd4 : ∀ x ∈ g4, x.isDigit = true) (hl4 : g4.length ≤ 3)
    (h5 : g5 ≠ []) (hd5 : ∀ x ∈ g5, x.isDigit = true) (hl5 : g5.length ≤ 3)
    (h6 : g6 ≠ []) (hd6 : ∀ x ∈ g6, x.isDigit = true) (hl6 : g6.length ≤ 3) :
    matchPort ('P' :: 'O' :: 'R' :: 'T' :: ' ' ::
        (g1 ++ ',' :: (g2 ++ ',' :: (g3 ++ ',' :: (g4 ++ ',' ::
          (g5 ++ ',' :: (g6 ++ ['\r', '\n'])))))))
      = some (g1, g2, g3, g4, g5, g6) := by
  have hhead : ∃ c t,
      g1 ++ ',' :: (g2 ++ ',' :: (g3 ++ ',' :: (g4 ++ ',' ::
        (g5 ++ ',' :: (g6 ++ ['\r', '\n']))))) = c :: t ∧ isPyWs c = false := by
    cases g1 with
    | nil => exact absurd rfl h1
    | cons c t =>
      exact ⟨c, t ++ ',' :: (g2 ++ ',' :: (g3 ++ ',' :: (g4 ++ ',' ::
        (g5 ++ ',' :: (g6 ++ ['\r', '\n']))))), by simp,
        digit_not_ws (hd1 c (List.mem_cons_self c t))⟩
  have e1 : parseOctet (g1 ++ ',' :: (g2 ++ ',' :: (g3 ++ ',' :: (g4 ++ ',' ::
      (g5 ++ ',' :: (g6 ++ ['\r', '\n'])))))) =
      some (g1, ',' :: (g2 ++ ',' :: (g3 ++ ',' :: (g4 ++ ',' ::
        (g5 ++ ',' :: (g6 ++ ['\r', '\n'])))))) :=
    parseOctet_group ','
      (g2 ++ ',' :: (g3 ++ ',' :: (g4 ++ ',' :: (g5 ++ ',' :: (g6 ++ ['\r', '\n'])))))
      h1 hd1 hl1 (by decide)
  have e2 : parseCommaOctets 5 (',' :: (g2 ++ ',' :: (g3 ++ ',' :: (g4 ++ ',' ::
      (g5 ++ ',' :: (g6 ++ ['\r', '\n'])))))) =
      some ([g2, g3, g4, g5, g6], ['\r', '\n']) := by
    rw [parseCommaOctets_cons 4 ','
      (g3 ++ ',' :: (g4 ++ ',' :: (g5 ++ ',' :: (g6 ++ ['\r', '\n']))))
      h2 hd2 hl2 (by decide)]
    rw [parseCommaOctets_cons 3 ','
      (g4 ++ ',' :: (g5 ++ ',' :: (g6 ++ ['\r', '\n'])))
      h3 hd3 hl3 (by decide)]
    rw [parseCommaOctets_cons 2 ','
      (g5 ++ ',' :: (g6 ++ ['\r', '\n'])) h4 hd4 hl4 (by decide)]
    rw [parseCommaOctets_cons 1 ',' (g6 ++ ['\r', '\n']) h5 hd5 hl5 (by decide)]
    rw [parseCommaOctets_cons 0 '\r' ['\n'] h6 hd6 hl6 (by decide)]
    rfl
  simp only [matchPort, dropVerbCi_port, Option.some_bind, dropWs1_space hhead, e1, e2,
    Option.map_some', expectCh_same]
  rfl

theorem matchType_valid (c : Char) (hc : c.isAlpha = true) :
    matchType ('T' :: 'Y' :: 'P' :: 'E' :: ' ' :: [c, '\r', '\n']) = some c := by
  simp only [matchType, dropVerbCi_type, Option.some_bind,
    dropWs1_space ⟨c, ['\r', '\n'], rfl, alpha_not_ws hc⟩]
  simp [hc]

/-! Computation lemmas for stripping and splitting constructed command lines. -/

theorem isPyWs_space : isPyWs ' ' = true := rfl

theorem pyStripList_verb_body (v₁ v₂ v₃ v₄ : Char) (body : List Char)
    (hv : isPyWs v₁ = false)
    (hb : ∀ c ∈ body, isPyWs c = false) (hne : body ≠ []) :
    pyStripList (v₁ :: v₂ :: v₃ :: v₄ :: ' ' :: body) =
      v₁ :: v₂ :: v₃ :: v₄ :: ' ' :: body := by
  obtain ⟨c, t, hrev⟩ : ∃ c t, body.reverse = c :: t := by
    cases hbr : body.reverse with
    | nil => exact absurd (List.reverse_eq_nil_iff.mp hbr) hne
    | cons c t => exact ⟨c, t, rfl⟩
  have hcw : isPyWs c = false := by
    refine hb c ?_
    rw [← List.mem_reverse, hrev]
    exact List.mem_cons_self c t
  have hwrev : (v₁ :: v₂ :: v₃ :: v₄ :: ' ' :: body).reverse =
      c :: (t ++ [' ', v₄, v₃, v₂, v₁]) := by
    simp [hrev]
  unfold pyStripList
  rw [List.dropWhile_cons_of_neg (by simp [hv]), hwrev,
    List.dropWhile_cons_of_neg (by simp [hcw]), ← hwrev, List.reverse_reverse]

theorem splitWs_verb_body (v₁ v₂ v₃ v₄ : Char) (body : List Char)
    (hv : ∀ c ∈ [v₁, v₂, v₃, v₄], isPyWs c = false)
    (hb : ∀ c ∈ body, isPyWs c = false) (hne : body ≠ []) :
    splitWs (v₁ :: v₂ :: v₃ :: v₄ :: ' ' :: body) = [[v₁, v₂, v₃, v₄], body] := by
  have hsplit : v₁ :: v₂ :: v₃ :: v₄ :: ' ' :: body =
      [v₁, v₂, v₃, v₄] ++ (' ' :: body) := rfl
  unfold splitWs
  rw [hsplit, splitWsAux_nonws_all _ _ hv]
  simp only [List.reverse_cons, List.reverse_nil, List.nil_append, List.append_nil,
    List.cons_append]
  simp only [splitWsAux, isPyWs_space, if_true, List.isEmpty_cons, Bool.false_eq_true,
    if_false, splitWsAux_nil_of_all hb hne]
  simp

/-! Reduction of the dispatcher to its branches, given the first four
characters of the uppercased command. -/

theorem dispatch_user (fileExists : String → Bool) (cmd : String) (ua : Bool) (rc : Nat)
    (ps : Bool) (h : (pyUpperList cmd.data).take 4 = ['U', 'S', 'E', 'R']) :
    handle_ftp_command fileExists cmd ua rc ps =
      (if (splitWs (pyStripList cmd.data)).length < 2 then
        (ua, rc, ps, "501 Syntax error in parameter.\r\n")
      else
        if containsSub ['3', '3', '1']
            (parse_ftp_input_user_command (pyStripList cmd.data ++ CRLF)).data then
          (true, rc, ps, parse_ftp_input_user_command (pyStripList cmd.data ++ CRLF))
        else
          (ua, rc, ps, parse_ftp_input_user_command (pyStripList cmd.data ++ CRLF))) := by
  unfold handle_ftp_command
  rw [h]
  rfl

theorem dispatch_pass (fileExists : String → Bool) (cmd : String) (ua : Bool) (rc : Nat)
    (ps : Bool) (h : (pyUpperList cmd.data).take 4 = ['P', 'A', 'S', 'S']) :
    handle_ftp_command fileExists cmd ua rc ps =
      (if (splitWs (pyStripList cmd.data)).length < 2 then
        (ua, rc, ps, "501 Syntax error in parameter.\r\n")
      else
        (ua, rc, ps, handle_pass_command (pyStripList cmd.data ++ CRLF) ua)) := by
  unfold handle_ftp_command
  rw [h]
  rfl

theorem dispatch_syst (fileExists : String → Bool) (cmd : String) (ua : Bool) (rc : Nat)
    (ps : Bool) (h : (pyUpperList cmd.data).take 4 = ['S', 'Y', 'S', 'T']) :
    handle_ftp_command fileExists cmd ua rc ps = (ua, rc, ps, handle_syst_command) := by
  unfold handle_ftp_command
  rw [h]
  rfl

theorem dispatch_type (fileExists : String → Bool) (cmd : String) (ua : Bool) (rc : Nat)
    (ps : Bool) (h : (pyUpperList cmd.data).take 4 = ['T', 'Y', 'P', 'E']) :
    handle_ftp_command fileExists cmd ua rc ps =
      (if (splitWs (pyStripList cmd.data)).length < 2 then
        (ua, rc, ps, "501 Syntax error in parameter.\r\n")
      else
        (ua, rc, ps, handle_type_command (pyStripList cmd.data ++ CRLF))) := by
  unfold handle_ftp_command
  rw [h]
  rfl

theorem dispatch_port (fileExists : String → Bool) (cmd : String) (ua : Bool) (rc : Nat)
    (ps : Bool) (h : (pyUpperList cmd.data).take 4 = ['P', 'O', 'R', 'T']) :
    handle_ftp_command fileExists cmd ua rc ps =
      (if (splitWs (pyStripList cmd.data)).length < 2 then
        (ua, rc, ps, "501 Syntax error in parameter.\r\n")
      else
        if containsSub ['2', '0', '0']
            (handle_port_command (pyStripList cmd.data ++ CRLF)).2.2.data then
          (ua, rc, true, (handle_port_command (pyStripList cmd.data ++ CRLF)).2.2)
        else
          (ua, rc, ps, (handle_port_command (pyStripList cmd.data ++ CRLF)).2.2)) := by
  unfold handle_ftp_command
  rw [h]
  rfl

theorem dispatch_retr (fileExists : String → Bool) (cmd : String) (ua : Bool) (rc : Nat)
    (ps : Bool) (h : (pyUpperList cmd.data).take 4 = ['R', 'E', 'T', 'R']) :
    handle_ftp_command fileExists cmd ua rc ps =
      (if (splitWs (pyStripList cmd.data)).length < 2 then
        (ua, rc, ps, "501 Syntax error in parameter.\r\n")
      else
        (ua,
          (handle_retr_command_ok fileExists (pyStripList cmd.data ++ CRLF) rc ps).1,
          ps,
          (handle_retr_command_ok fileExists (pyStripList cmd.data ++ CRLF) rc ps).2)) := by
  unfold handle_ftp_command
  rw [h]
  rfl

theorem dispatch_quit (fileExists : String → Bool) (cmd : String) (ua : Bool) (rc : Nat)
    (ps : Bool) (h : (pyUpperList cmd.data).take 4 = ['Q', 'U', 'I', 'T']) :
    handle_ftp_command fileExists cmd ua rc ps = (ua, rc, ps, handle_quit_command) := by
  unfold handle_ftp_command
  rw [h]
  rfl

/-! Further helper lemmas used by the claim theorems. -/

theorem all_not_ws_digits {l : List Char} (h : ∀ c ∈ l, c.isDigit = true) :
    ∀ c ∈ l, isPyWs c = false :=
  fun c hc => digit_not_ws (h c hc)

theorem all_not_ws_append {l₁ l₂ : List Char} (a : ∀ c ∈ l₁, isPyWs c = false)
    (b : ∀ c ∈ l₂, isPyWs c = false) : ∀ c ∈ l₁ ++ l₂, isPyWs c = false := by
  intro c hc
  rcases List.mem_append.mp hc with h | h
  exacts [a c h, b c h]

theorem all_not_ws_cons {x : Char} {l : List Char} (hx : isPyWs x = false)
    (hl : ∀ c ∈ l, isPyWs c = false) : ∀ c ∈ x :: l, isPyWs c = false := by
  intro c hc
  rcases List.mem_cons.mp hc with rfl | h
  exacts [hx, hl c h]

theorem retr_reply_indep (fileExists : String → Bool) (inp : List Char)
    (rc rc' : Nat) (ps : Bool) :
    (handle_retr_command_ok fileExists inp rc ps).2 =
      (handle_retr_command_ok fileExists inp rc' ps).2 := by
  unfold handle_retr_command_ok
  cases ps with
  | false => rfl
  | true =>
    cases matchRetr inp with
    | none => rfl
    | some tok => cases hfe : fileExists (String.mk tok) <;> simp [hfe]

theorem retr_reply_ne_503 (fileExists : String → Bool) (inp : List Char) (rc : Nat) :
    (handle_retr_command_ok fileExists inp rc true).2 ≠
      "503 Bad sequence of commands. Use PORT before RETR.\r\n" := by
  unfold handle_retr_command_ok
  cases matchRetr inp with
  | none =>
    show ("501 Syntax error in parameter.\r\n" : String) ≠ _
    decide
  | some tok =>
    cases hfe : fileExists (String.mk tok) with
    | false =>
      simp only [hfe, Bool.not_true, Bool.false_eq_true, if_false, Bool.true_eq_false]
      decide
    | true =>
      simp only [hfe, Bool.not_true, Bool.false_eq_true, if_false, if_true]
      decide

theorem validPORT_step (fileExists : String → Bool) (cmd : String) (ua : Bool)
    (rc : Nat) (ps : Bool) (h : isValidPORT cmd = true) :
    handle_ftp_command fileExists cmd ua rc ps =
      (ua, rc, true, "200 Port command successful.\r\n") := by
  rw [isValidPORT, Bool.and_eq_true, Bool.and_eq_true] at h
  obtain ⟨⟨hA, hB⟩, hC⟩ := h
  rw [dispatch_port _ _ _ _ _ (by simpa using hA)]
  rw [if_neg (by simpa using Nat.not_lt.mpr (Nat.le_of_ble_eq_true hB))]
  obtain ⟨gs, hm⟩ := Option.isSome_iff_exists.mp hC
  obtain ⟨a, b, c, d, e, f⟩ := gs
  unfold handle_port_command
  rw [hm]
  rfl

theorem retr_dispatch_ps (fileExists : String → Bool) (cmd : String) (ua : Bool) (rc : Nat)
    (h : (pyUpperList cmd.data).take 4 = ['R', 'E', 'T', 'R']) :
    (handle_ftp_command fileExists cmd ua rc true).2.2.1 = true := by
  rw [dispatch_retr _ _ _ _ _ h]
  split <;> rfl

theorem retr_dispatch_reply (fileExists : String → Bool) (cmd : String) (ua : Bool)
    (rc : Nat) (ps : Bool) (h : (pyUpperList cmd.data).take 4 = ['R', 'E', 'T', 'R']) :
    (handle_ftp_command fileExists cmd ua rc ps).2.2.2 =
      if (splitWs (pyStripList cmd.data)).length < 2 then
        "501 Syntax error in parameter.\r\n"
      else (handle_retr_command_ok fileExists (pyStripList cmd.data ++ CRLF) rc ps).2 := by
  rw [dispatch_retr _ _ _ _ _ h]
  split <;> rfl

/-! The claims. -/

/-- C1, counterexample: with an authenticated session and the endpoint flag
set, a valid RETR for an existing file yields the transfer replies but does
not clear the endpoint flag, and an immediately repeated RETR yields the
transfer replies again instead of the sequence-error reply 503. -/
theorem C1_counterexample :
    handle_ftp_command fsExisting "RETR existing.txt" true 0 true =
      (true, 1, true,
        "150 File status okay.\r\n250 Requested file action completed.\r\n") ∧
    handle_ftp_command fsExisting "RETR existing.txt" true 1 true =
      (true, 2, true,
        "150 File status okay.\r\n250 Requested file action completed.\r\n") ∧
    ("150 File status okay.\r\n250 Requested file action completed.\r\n" : String) ≠
      "503 Bad sequence of commands. Use PORT before RETR.\r\n" :=
  ⟨by decide, by decide, by decide⟩

/-- C1, amended: processing any RETR command from a session whose endpoint
flag is set leaves the endpoint flag set, an immediately repeated identical
RETR yields the same reply as the first, and that reply is never the
sequence-error reply 503. -/
theorem C1_amended (fileExists : String → Bool) (cmd : String) (ua : Bool) (rc : Nat)
    (h : (pyUpperList cmd.data).take 4 = ['R', 'E', 'T', 'R']) :
    (handle_ftp_command fileExists cmd ua rc true).2.2.1 = true ∧
    (handle_ftp_command fileExists cmd
        (handle_ftp_command fileExists cmd ua rc true).1
        (handle_ftp_command fileExists cmd ua rc true).2.1
        (handle_ftp_command fileExists cmd ua rc true).2.2.1).2.2.2 =
      (handle_ftp_command fileExists cmd ua rc true).2.2.2 ∧
    (handle_ftp_command fileExists cmd ua rc true).2.2.2 ≠
      "503 Bad sequence of commands. Use PORT before RETR.\r\n" := by
  refine ⟨retr_dispatch_ps fileExists cmd ua rc h, ?_, ?_⟩
  · rw [retr_dispatch_ps fileExists cmd ua rc h,
      retr_dispatch_reply fileExists cmd _ _ true h,
      retr_dispatch_reply fileExists cmd ua rc true h]
    by_cases hl : (splitWs (pyStripList cmd.data)).length < 2
    · rw [if_pos hl, if_pos hl]
    · rw [if_neg hl, if_neg hl]
      exact retr_reply_indep fileExists _ _ rc true
  · rw [retr_dispatch_reply fileExists cmd ua rc true h]
    by_cases hl : (splitWs (pyStripList cmd.data)).length < 2
    · rw [if_pos hl]
      decide
    · rw [if_neg hl]
      exact retr_reply_ne_503 fileExists _ rc

/-- C1, witness for the amended theorem at the command RETR f. -/
theorem C1_amended_witness :
    (handle_ftp_command fsNone "RETR f" true 0 true).2.2.1 = true ∧
    (handle_ftp_command fsNone "RETR f"
        (handle_ftp_command fsNone "RETR f" true 0 true).1
        (handle_ftp_command fsNone "RETR f" true 0 true).2.1
        (handle_ftp_command fsNone "RETR f" true 0 true).2.2.1).2.2.2 =
      (handle_ftp_command fsNone "RETR f" true 0 true).2.2.2 ∧
    (handle_ftp_command fsNone "RETR f" true 0 true).2.2.2 ≠
      "503 Bad sequence of commands. Use PORT before RETR.\r\n" :=
  C1_amended fsNone "RETR f" true 0 (by decide)

/-- C2, counterexample: a session that is not authenticated processes a valid
PORT command with the success reply 200 (not the access-denied reply 530) and
its endpoint flag changes from unset to set, so the state is not unchanged. -/
theorem C2_counterexample :
    handle_ftp_command fsNone "PORT 1,2,3,4,5,6" false 0 false =
      (false, 0, true, "200 Port command successful.\r\n") ∧
    (handle_ftp_command fsNone "PORT 1,2,3,4,5,6" false 0 false).2.2.1 ≠ false ∧
    ("200 Port command successful.\r\n" : String).take 3 ≠ "530" :=
  ⟨by decide, by decide, by decide⟩

/-- C2, amended: TYPE, PORT and RETR never consult the authentication flag:
an unauthenticated session is processed exactly as an authenticated one (the
flag itself passes through unchanged), and no access-denied reply exists. -/
theorem C2_amended (fileExists : String → Bool) (cmd : String) (rc : Nat) (ps : Bool)
    (h : (pyUpperList cmd.data).take 4 = ['T', 'Y', 'P', 'E'] ∨
      (pyUpperList cmd.data).take 4 = ['P', 'O', 'R', 'T'] ∨
      (pyUpperList cmd.data).take 4 = ['R', 'E', 'T', 'R']) :
    handle_ftp_command fileExists cmd false rc ps =
      (false, (handle_ftp_command fileExists cmd true rc ps).2) := by
  rcases h with h | h | h
  · rw [dispatch_type _ _ false rc ps h, dispatch_type _ _ true rc ps h]
    by_cases hl : (splitWs (pyStripList cmd.data)).length < 2 <;> simp [hl]
  · rw [dispatch_port _ _ false rc ps h, dispatch_port _ _ true rc ps h]
    by_cases hl : (splitWs (pyStripList cmd.data)).length < 2
    · simp [hl]
    · rw [if_neg hl, if_neg hl]
      split <;> simp [*]
  · rw [dispatch_retr _ _ false rc ps h, dispatch_retr _ _ true rc ps h]
    by_cases hl : (splitWs (pyStripList cmd.data)).length < 2 <;> simp [hl]

/-- C2, witness for the amended theorem at the command TYPE I. -/
theorem C2_amended_witness :
    handle_ftp_command fsNone "TYPE I" false 0 false =
      (false, (handle_ftp_command fsNone "TYPE I" true 0 false).2) :=
  C2_amended fsNone "TYPE I" 0 false (Or.inl (by decide))

/-- C3, counterexample: with no valid USER accepted, a PASS command lacking a
parameter yields the parameter-error reply 501, not the sequence-error reply
503 demanded by the claim; and a session that has completed the USER and
PASS handshake (fully authenticated) answers a further PASS with 230, not
503, since the code keeps no separate fully-authenticated state. -/
theorem C3_counterexample :
    handle_ftp_command fsNone "PASS" false 0 false =
      (false, 0, false, "501 Syntax error in parameter.\r\n") ∧
    ("501 Syntax error in parameter.\r\n" : String) ≠
      "503 Bad sequence of commands.\r\n" ∧
    run fsNone ["USER anon", "PASS x", "PASS x"] false 0 false =
      (true, 0, false,
        ["331 Guest access OK, send password.\r\n", "230 Guest login OK.\r\n",
         "230 Guest login OK.\r\n"]) ∧
    ("230 Guest login OK.\r\n" : String) ≠ "503 Bad sequence of commands.\r\n" :=
  ⟨by decide, by decide, by decide, by decide⟩

/-- C3, amended: while no valid USER has been accepted, a PASS command with a
parameter token yields the sequence-error reply 503 and a PASS command with
no parameter token yields the parameter-error reply 501; and once a valid
USER has been accepted (the only authentication flag the code keeps, so the
same state also describes a session whose PASS already succeeded), PASS is
validated syntactically, yielding 230 for a well-formed parameter and 501
otherwise.  In every case the session state is unchanged. -/
theorem C3_amended (fileExists : String → Bool) (cmd : String) (rc : Nat) (ps : Bool)
    (h : (pyUpperList cmd.data).take 4 = ['P', 'A', 'S', 'S']) :
    handle_ftp_command fileExists cmd false rc ps =
      (false, rc, ps,
        if (splitWs (pyStripList cmd.data)).length < 2 then
          "501 Syntax error in parameter.\r\n"
        else "503 Bad sequence of commands.\r\n") ∧
    handle_ftp_command fileExists cmd true rc ps =
      (true, rc, ps,
        if (splitWs (pyStripList cmd.data)).length < 2 then
          "501 Syntax error in parameter.\r\n"
        else if matchPass (pyStripList cmd.data ++ CRLF) then "230 Guest login OK.\r\n"
        else "501 Syntax error in parameter.\r\n") := by
  constructor
  · rw [dispatch_pass _ _ _ _ _ h]
    by_cases hl : (splitWs (pyStripList cmd.data)).length < 2
    · rw [if_pos hl, if_pos hl]
    · rw [if_neg hl, if_neg hl]
      rfl
  · rw [dispatch_pass _ _ _ _ _ h]
    by_cases hl : (splitWs (pyStripList cmd.data)).length < 2
    · rw [if_pos hl, if_pos hl]
    · rw [if_neg hl, if_neg hl]
      rfl

/-- C3, witness for the amended theorem at the command PASS secret, in both
the no-valid-USER state and the valid-USER-accepted state. -/
theorem C3_amended_witness :
    handle_ftp_command fsNone "PASS secret" false 3 true =
      (false, 3, true, "503 Bad sequence of commands.\r\n") ∧
    handle_ftp_command fsNone "PASS secret" true 3 true =
      (true, 3, true, "230 Guest login OK.\r\n") := by
  have h := C3_amended fsNone "PASS secret" 3 true (by decide)
  refine ⟨?_, ?_⟩
  · rw [h.1]
    decide
  · rw [h.2]
    decide

/-- C8, counterexample: a valid QUIT is answered with the reply string coded
200 (not 221), and a valid SYST is answered with the reply string coded 215
(not 200). -/
theorem C8_counterexample :
    handle_ftp_command fsNone "QUIT" false 0 false =
      (false, 0, false, "200 Command OK.\r\n") ∧
    ("200 Command OK.\r\n" : String).take 3 ≠ "221" ∧
    handle_ftp_command fsNone "SYST" false 0 false =
      (false, 0, false, "215 UNIX Type: L8.\r\n") ∧
    ("215 UNIX Type: L8.\r\n" : String).take 3 ≠ "200" :=
  ⟨by decide, by decide, by decide, by decide⟩

/-- C8, amended: for every session state, any command dispatched as QUIT is
acknowledged with the fixed reply 200 Command OK, and any command dispatched
as SYST yields the fixed reply 215 UNIX Type: L8; the state is unchanged in
both cases. -/
theorem C8_amended (fileExists : String → Bool) (cmd : String) (ua : Bool) (rc : Nat)
    (ps : Bool) :
    ((pyUpperList cmd.data).take 4 = ['Q', 'U', 'I', 'T'] →
      handle_ftp_command fileExists cmd ua rc ps = (ua, rc, ps, "200 Command OK.\r\n")) ∧
    ((pyUpperList cmd.data).take 4 = ['S', 'Y', 'S', 'T'] →
      handle_ftp_command fileExists cmd ua rc ps = (ua, rc, ps, "215 UNIX Type: L8.\r\n")) :=
  ⟨fun h => by rw [dispatch_quit _ _ _ _ _ h]; rfl,
   fun h => by rw [dispatch_syst _ _ _ _ _ h]; rfl⟩

/-- C8, witness for the amended theorem at the commands QUIT and SYST. -/
theorem C8_amended_witness :
    handle_ftp_command fsNone "QUIT" false 0 false =
      (false, 0, false, "200 Command OK.\r\n") ∧
    handle_ftp_command fsNone "SYST" true 2 true =
      (true, 2, true, "215 UNIX Type: L8.\r\n") :=
  ⟨(C8_amended fsNone "QUIT" false 0 false).1 (by decide),
   (C8_amended fsNone "SYST" true 2 true).2 (by decide)⟩

theorem port_line_handler (g1 g2 g3 g4 g5 g6 : List Char)
    (h1 : g1 ≠ []) (hd1 : ∀ x ∈ g1, x.isDigit = true) (hl1 : g1.length ≤ 3)
    (h2 : g2 ≠ []) (hd2 : ∀ x ∈ g2, x.isDigit = true) (hl2 : g2.length ≤ 3)
    (h3 : g3 ≠ []) (hd3 : ∀ x ∈ g3, x.isDigit = true) (hl3 : g3.length ≤ 3)
    (h4 : g4 ≠ []) (hd4 : ∀ x ∈ g4, x.isDigit = true) (hl4 : g4.length ≤ 3)
    (h5 : g5 ≠ []) (hd5 : ∀ x ∈ g5, x.isDigit = true) (hl5 : g5.length ≤ 3)
    (h6 : g6 ≠ []) (hd6 : ∀ x ∈ g6, x.isDigit = true) (hl6 : g6.length ≤ 3)
    (cmd : String)
    (hcmd : cmd.data = 'P' :: 'O' :: 'R' :: 'T' :: ' ' ::
      (g1 ++ ',' :: (g2 ++ ',' :: (g3 ++ ',' :: (g4 ++ ',' :: (g5 ++ ',' :: g6)))))) :
    handle_port_command (pyStripList cmd.data ++ CRLF) =
      (some (String.mk g1 ++ "." ++ String.mk g2 ++ "." ++ String.mk g3 ++ "." ++
        String.mk g4),
       some (digitsToNat g5 <<< 8 + digitsToNat g6),
       "200 Port command successful.\r\n") := by
  have hbody : ∀ x ∈ g1 ++ ',' :: (g2 ++ ',' :: (g3 ++ ',' :: (g4 ++ ',' ::
      (g5 ++ ',' :: g6)))), isPyWs x = false :=
    all_not_ws_append (all_not_ws_digits hd1) (all_not_ws_cons (by decide)
      (all_not_ws_append (all_not_ws_digits hd2) (all_not_ws_cons (by decide)
        (all_not_ws_append (all_not_ws_digits hd3) (all_not_ws_cons (by decide)
          (all_not_ws_append (all_not_ws_digits hd4) (all_not_ws_cons (by decide)
            (all_not_ws_append (all_not_ws_digits hd5) (all_not_ws_cons (by decide)
              (all_not_ws_digits hd6))))))))))
  have hne : g1 ++ ',' :: (g2 ++ ',' :: (g3 ++ ',' :: (g4 ++ ',' ::
      (g5 ++ ',' :: g6)))) ≠ [] := by simp
  rw [hcmd, pyStripList_verb_body _ _ _ _ _ (by decide) hbody hne]
  simp only [CRLF, List.cons_append, List.append_assoc]
  unfold handle_port_command
  rw [matchPort_valid g1 g2 g3 g4 g5 g6 h1 hd1 hl1 h2 hd2 hl2 h3 hd3 hl3
    h4 hd4 hl4 h5 hd5 hl5 h6 hd6 hl6]

theorem port_line_result (fileExists : String → Bool) (ua : Bool) (rc : Nat) (ps : Bool)
    (g1 g2 g3 g4 g5 g6 : List Char)
    (h1 : g1 ≠ []) (hd1 : ∀ x ∈ g1, x.isDigit = true) (hl1 : g1.length ≤ 3)
    (h2 : g2 ≠ []) (hd2 : ∀ x ∈ g2, x.isDigit = true) (hl2 : g2.length ≤ 3)
    (h3 : g3 ≠ []) (hd3 : ∀ x ∈ g3, x.isDigit = true) (hl3 : g3.length ≤ 3)
    (h4 : g4 ≠ []) (hd4 : ∀ x ∈ g4, x.isDigit = true) (hl4 : g4.length ≤ 3)
    (h5 : g5 ≠ []) (hd5 : ∀ x ∈ g5, x.isDigit = true) (hl5 : g5.length ≤ 3)
    (h6 : g6 ≠ []) (hd6 : ∀ x ∈ g6, x.isDigit = true) (hl6 : g6.length ≤ 3)
    (cmd : String)
    (hcmd : cmd.data = 'P' :: 'O' :: 'R' :: 'T' :: ' ' ::
      (g1 ++ ',' :: (g2 ++ ',' :: (g3 ++ ',' :: (g4 ++ ',' :: (g5 ++ ',' :: g6)))))) :
    handle_ftp_command fileExists cmd ua rc ps =
      (ua, rc, true, "200 Port command successful.\r\n") := by
  have hbody : ∀ x ∈ g1 ++ ',' :: (g2 ++ ',' :: (g3 ++ ',' :: (g4 ++ ',' ::
      (g5 ++ ',' :: g6)))), isPyWs x = false :=
    all_not_ws_append (all_not_ws_digits hd1) (all_not_ws_cons (by decide)
      (all_not_ws_append (all_not_ws_digits hd2) (all_not_ws_cons (by decide)
        (all_not_ws_append (all_not_ws_digits hd3) (all_not_ws_cons (by decide)
          (all_not_ws_append (all_not_ws_digits hd4) (all_not_ws_cons (by decide)
            (all_not_ws_append (all_not_ws_digits hd5) (all_not_ws_cons (by decide)
              (all_not_ws_digits hd6))))))))))
  have hne : g1 ++ ',' :: (g2 ++ ',' :: (g3 ++ ',' :: (g4 ++ ',' ::
      (g5 ++ ',' :: g6)))) ≠ [] := by simp
  have hv4 : (pyUpperList cmd.data).take 4 = ['P', 'O', 'R', 'T'] := by
    rw [hcmd]
    rfl
  rw [dispatch_port _ _ _ _ _ hv4, hcmd,
    pyStripList_verb_body _ _ _ _ _ (by decide) hbody hne,
    splitWs_verb_body _ _ _ _ _ (by decide) hbody hne,
    if_neg (by simp)]
  simp only [CRLF, List.cons_append, List.append_assoc]
  unfold handle_port_command
  rw [matchPort_valid g1 g2 g3 g4 g5 g6 h1 hd1 hl1 h2 hd2 hl2 h3 hd3 hl3
    h4 hd4 hl4 h5 hd5 hl5 h6 hd6 hl6]
  rfl

/-- C4, counterexample: the PORT command with first octet 256 is accepted:
the reply is the success reply 200 (not the parameter-error reply 501) and
the endpoint flag becomes set. -/
theorem C4_counterexample :
    handle_ftp_command fsNone "PORT 256,0,0,1,0,1" true 0 false =
      (true, 0, true, "200 Port command successful.\r\n") ∧
    ("200 Port command successful.\r\n" : String) ≠
      "501 Syntax error in parameter.\r\n" ∧
    (handle_ftp_command fsNone "PORT 256,0,0,1,0,1" true 0 false).2.2.1 ≠ false :=
  ⟨by decide, by decide, by decide⟩

/-- C4, amended: the PORT grammar only requires each of the six
comma-separated fields to be a run of one to three decimal digits; no range
check against 255 is performed, so any such command (in particular one with a
field greater than 255, such as 256) yields the success reply 200 and sets
the endpoint flag, for every session state. -/
theorem C4_amended (fileExists : String → Bool) (ua : Bool) (rc : Nat) (ps : Bool)
    (g1 g2 g3 g4 g5 g6 : List Char)
    (h1 : g1 ≠ []) (hd1 : ∀ x ∈ g1, x.isDigit = true) (hl1 : g1.length ≤ 3)
    (h2 : g2 ≠ []) (hd2 : ∀ x ∈ g2, x.isDigit = true) (hl2 : g2.length ≤ 3)
    (h3 : g3 ≠ []) (hd3 : ∀ x ∈ g3, x.isDigit = true) (hl3 : g3.length ≤ 3)
    (h4 : g4 ≠ []) (hd4 : ∀ x ∈ g4, x.isDigit = true) (hl4 : g4.length ≤ 3)
    (h5 : g5 ≠ []) (hd5 : ∀ x ∈ g5, x.isDigit = true) (hl5 : g5.length ≤ 3)
    (h6 : g6 ≠ []) (hd6 : ∀ x ∈ g6, x.isDigit = true) (hl6 : g6.length ≤ 3)
    (cmd : String)
    (hcmd : cmd.data = 'P' :: 'O' :: 'R' :: 'T' :: ' ' ::
      (g1 ++ ',' :: (g2 ++ ',' :: (g3 ++ ',' :: (g4 ++ ',' :: (g5 ++ ',' :: g6)))))) :
    handle_ftp_command fileExists cmd ua rc ps =
      (ua, rc, true, "200 Port command successful.\r\n") :=
  port_line_result fileExists ua rc ps g1 g2 g3 g4 g5 g6 h1 hd1 hl1 h2 hd2 hl2
    h3 hd3 hl3 h4 hd4 hl4 h5 hd5 hl5 h6 hd6 hl6 cmd hcmd

/-- C4, witness for the amended theorem at PORT 256,0,0,1,0,1. -/
theorem C4_amended_witness :
    handle_ftp_command fsNone "PORT 256,0,0,1,0,1" true 0 false =
      (true, 0, true, "200 Port command successful.\r\n") :=
  C4_amended fsNone true 0 false ['2', '5', '6'] ['0'] ['0'] ['1'] ['0'] ['1']
    (by decide) (by decide) (by decide) (by decide) (by decide) (by decide)
    (by decide) (by decide) (by decide) (by decide) (by decide) (by decide)
    (by decide) (by decide) (by decide) (by decide) (by decide) (by decide)
    "PORT 256,0,0,1,0,1" (by decide)

/-- C5, counterexample: the success reply of PORT does not echo the decoded
address and port; for PORT 127,0,0,1,117,136 the reply is the fixed string
200 Port command successful followed by the terminator, not the echoing
string demanded by the claim. -/
theorem C5_counterexample :
    handle_ftp_command fsNone "PORT 127,0,0,1,117,136" true 0 false =
      (true, 0, true, "200 Port command successful.\r\n") ∧
    ("200 Port command successful.\r\n" : String) ≠
      "200 Port command successful (127.0.0.1,30088).\r\n" :=
  ⟨by decide, by decide⟩

/-- C5, amended: the PORT handler decodes the address as the dotted join of
the first four fields and the port as 256 times the fifth field plus the
sixth, but its reply is the fixed string 200 Port command successful with no
echo, and the dispatcher discards the decoded address and port, recording
only that the endpoint flag is set. -/
theorem C5_amended (fileExists : String → Bool) (ua : Bool) (rc : Nat) (ps : Bool)
    (g1 g2 g3 g4 g5 g6 : List Char)
    (h1 : g1 ≠ []) (hd1 : ∀ x ∈ g1, x.isDigit = true) (hl1 : g1.length ≤ 3)
    (h2 : g2 ≠ []) (hd2 : ∀ x ∈ g2, x.isDigit = true) (hl2 : g2.length ≤ 3)
    (h3 : g3 ≠ []) (hd3 : ∀ x ∈ g3, x.isDigit = true) (hl3 : g3.length ≤ 3)
    (h4 : g4 ≠ []) (hd4 : ∀ x ∈ g4, x.isDigit = true) (hl4 : g4.length ≤ 3)
    (h5 : g5 ≠ []) (hd5 : ∀ x ∈ g5, x.isDigit = true) (hl5 : g5.length ≤ 3)
    (h6 : g6 ≠ []) (hd6 : ∀ x ∈ g6, x.isDigit = true) (hl6 : g6.length ≤ 3)
    (cmd : String)
    (hcmd : cmd.data = 'P' :: 'O' :: 'R' :: 'T' :: ' ' ::
      (g1 ++ ',' :: (g2 ++ ',' :: (g3 ++ ',' :: (g4 ++ ',' :: (g5 ++ ',' :: g6)))))) :
    handle_port_command (pyStripList cmd.data ++ CRLF) =
      (some (String.mk g1 ++ "." ++ String.mk g2 ++ "." ++ String.mk g3 ++ "." ++
        String.mk g4),
       some (digitsToNat g5 * 256 + digitsToNat g6),
       "200 Port command successful.\r\n") ∧
    handle_ftp_command fileExists cmd ua rc ps =
      (ua, rc, true, "200 Port command successful.\r\n") := by
  constructor
  · rw [port_line_handler g1 g2 g3 g4 g5 g6 h1 hd1 hl1 h2 hd2 hl2 h3 hd3 hl3
      h4 hd4 hl4 h5 hd5 hl5 h6 hd6 hl6 cmd hcmd]
    norm_num [Nat.shiftLeft_eq]
  · exact port_line_result fileExists ua rc ps g1 g2 g3 g4 g5 g6 h1 hd1 hl1 h2 hd2 hl2
      h3 hd3 hl3 h4 hd4 hl4 h5 hd5 hl5 h6 hd6 hl6 cmd hcmd

/-- C5, witness for the amended theorem at PORT 127,0,0,1,117,136, where the
decoded endpoint is 127.0.0.1 with port 30088. -/
theorem C5_amended_witness :
    handle_port_command (pyStripList ("PORT 127,0,0,1,117,136" : String).data ++ CRLF) =
      (some "127.0.0.1", some 30088, "200 Port command successful.\r\n") ∧
    handle_ftp_command fsNone "PORT 127,0,0,1,117,136" true 0 false =
      (true, 0, true, "200 Port command successful.\r\n") := by
  have h := C5_amended fsNone true 0 false
    ['1', '2', '7'] ['0'] ['0'] ['1'] ['1', '1', '7'] ['1', '3', '6']
    (by decide) (by decide) (by decide) (by decide) (by decide) (by decide)
    (by decide) (by decide) (by decide) (by decide) (by decide) (by decide)
    (by decide) (by decide) (by decide) (by decide) (by decide) (by decide)
    "PORT 127,0,0,1,117,136" (by decide)
  refine ⟨?_, h.2⟩
  rw [h.1]
  decide

/-- C6, counterexample: TYPE A from an authenticated session yields the
parameter-error reply 501 rather than 200 Type set to A, and the lowercase
parameter i is likewise rejected with 501 rather than accepted as I. -/
theorem C6_counterexample :
    handle_ftp_command fsNone "TYPE A" true 0 false =
      (true, 0, false, "501 Syntax error in parameter.\r\n") ∧
    handle_ftp_command fsNone "TYPE i" true 0 false =
      (true, 0, false, "501 Syntax error in parameter.\r\n") ∧
    ("501 Syntax error in parameter.\r\n" : String) ≠ "200 Type set to A.\r\n" :=
  ⟨by decide, by decide, by decide⟩

/-- C6, amended: for every session state, a TYPE command whose parameter is a
single letter yields 200 Type set to I exactly when that letter is the
uppercase I, and the parameter-error reply 501 for every other letter,
including A and the lowercase i; the session state is unchanged and the
authentication flag is not consulted. -/
theorem C6_amended (fileExists : String → Bool) (ua : Bool) (rc : Nat) (ps : Bool)
    (c : Char) (hc : c.isAlpha = true) (cmd : String)
    (hcmd : cmd.data = ['T', 'Y', 'P', 'E', ' ', c]) :
    handle_ftp_command fileExists cmd ua rc ps =
      (ua, rc, ps,
        if c == 'I' then "200 Type set to I.\r\n"
        else "501 Syntax error in parameter.\r\n") := by
  have hb : ∀ x ∈ [c], isPyWs x = false := by
    intro x hx
    rcases List.mem_singleton.mp hx with rfl
    exact alpha_not_ws hc
  have hv4 : (pyUpperList cmd.data).take 4 = ['T', 'Y', 'P', 'E'] := by
    rw [hcmd]
    rfl
  rw [dispatch_type _ _ _ _ _ hv4, hcmd]
  rw [show ('T' :: 'Y' :: 'P' :: 'E' :: ' ' :: [c] : List Char) =
    'T' :: 'Y' :: 'P' :: 'E' :: ' ' :: [c] from rfl]
  rw [pyStripList_verb_body _ _ _ _ _ (by decide) hb (by simp),
    splitWs_verb_body _ _ _ _ _ (by decide) hb (by simp),
    if_neg (by simp)]
  simp only [CRLF, List.cons_append, List.nil_append]
  unfold handle_type_command
  rw [matchType_valid c hc]

/-- C6, witness for the amended theorem at TYPE A. -/
theorem C6_amended_witness :
    handle_ftp_command fsNone "TYPE A" true 0 false =
      (true, 0, false, "501 Syntax error in parameter.\r\n") := by
  rw [C6_amended fsNone true 0 false 'A' (by decide) "TYPE A" (by decide)]
  decide

/-- C7, counterexample: a valid USER command received by a fully authenticated
session with the endpoint flag set leaves the endpoint flag set, contradicting
the claim that the data endpoint is discarded. -/
theorem C7_counterexample :
    handle_ftp_command fsNone "USER anon" true 5 true =
      (true, 5, true, "331 Guest access OK, send password.\r\n") ∧
    (handle_ftp_command fsNone "USER anon" true 5 true).2.2.1 ≠ false :=
  ⟨by decide, by decide⟩

/-- C7, amended: from every session state, a syntactically valid USER command
sets the single authentication flag (meaning a valid USER has been received,
with reply 331 asking for a password) and leaves the retrieval counter and
the endpoint flag unchanged; the endpoint is not discarded. -/
theorem C7_amended (fileExists : String → Bool) (ua : Bool) (rc : Nat) (ps : Bool)
    (tok : List Char) (hne : tok ≠ []) (htok : ∀ c ∈ tok, isUserChar c = true)
    (cmd : String) (hcmd : cmd.data = 'U' :: 'S' :: 'E' :: 'R' :: ' ' :: tok) :
    handle_ftp_command fileExists cmd ua rc ps =
      (true, rc, ps, "331 Guest access OK, send password.\r\n") := by
  have hb : ∀ x ∈ tok, isPyWs x = false :=
    fun x hx => userChar_not_ws (htok x hx)
  have hv4 : (pyUpperList cmd.data).take 4 = ['U', 'S', 'E', 'R'] := by
    rw [hcmd]
    rfl
  rw [dispatch_user _ _ _ _ _ hv4, hcmd,
    pyStripList_verb_body _ _ _ _ _ (by decide) hb hne,
    splitWs_verb_body _ _ _ _ _ (by decide) hb hne,
    if_neg (by simp)]
  simp only [CRLF, List.cons_append]
  unfold parse_ftp_input_user_command
  rw [matchUser_valid tok hne htok]
  rfl

/-- C7, witness for the amended theorem at USER anon from an authenticated
session with the endpoint flag set. -/
theorem C7_amended_witness :
    handle_ftp_command fsNone "USER anon" false 7 true =
      (true, 7, true, "331 Guest access OK, send password.\r\n") :=
  C7_amended fsNone false 7 true ['a', 'n', 'o', 'n'] (by decide) (by decide)
    "USER anon" (by decide)

theorem parse_user_replies (inp : List Char) :
    parse_ftp_input_user_command inp = "331 Guest access OK, send password.\r\n" ∨
    parse_ftp_input_user_command inp = "501 Syntax error in parameter.\r\n" := by
  unfold parse_ftp_input_user_command
  by_cases hm : matchUser inp = true
  · exact Or.inl (by rw [if_pos hm])
  · exact Or.inr (by rw [if_neg hm])

theorem pass_replies (inp : List Char) (ua : Bool) :
    handle_pass_command inp ua = "503 Bad sequence of commands.\r\n" ∨
    handle_pass_command inp ua = "230 Guest login OK.\r\n" ∨
    handle_pass_command inp ua = "501 Syntax error in parameter.\r\n" := by
  unfold handle_pass_command
  cases ua with
  | false => exact Or.inl rfl
  | true =>
    by_cases hm : matchPass inp = true
    · refine Or.inr (Or.inl ?_)
      show (if matchPass inp = true then ("230 Guest login OK.\r\n" : String)
        else "501 Syntax error in parameter.\r\n") = _
      rw [if_pos hm]
    · refine Or.inr (Or.inr ?_)
      show (if matchPass inp = true then ("230 Guest login OK.\r\n" : String)
        else "501 Syntax error in parameter.\r\n") = _
      rw [if_neg hm]

theorem port_replies (inp : List Char) :
    (handle_port_command inp).2.2 = "200 Port command successful.\r\n" ∨
    (handle_port_command inp).2.2 = "501 Syntax error in parameter.\r\n" := by
  unfold handle_port_command
  cases matchPort inp with
  | some g =>
    obtain ⟨a, b, c, d, e, f⟩ := g
    exact Or.inl rfl
  | none => exact Or.inr rfl

theorem retr_replies (fileExists : String → Bool) (inp : List Char) (rc : Nat) (ps : Bool) :
    (handle_retr_command_ok fileExists inp rc ps).2 =
      "503 Bad sequence of commands. Use PORT before RETR.\r\n" ∨
    (handle_retr_command_ok fileExists inp rc ps).2 =
      "150 File status okay.\r\n250 Requested file action completed.\r\n" ∨
    (handle_retr_command_ok fileExists inp rc ps).2 =
      "550 Requested action not taken. File unavailable.\r\n" ∨
    (handle_retr_command_ok fileExists inp rc ps).2 =
      "501 Syntax error in parameter.\r\n" := by
  unfold handle_retr_command_ok
  cases ps with
  | false => exact Or.inl rfl
  | true =>
    cases matchRetr inp with
    | none => exact Or.inr (Or.inr (Or.inr rfl))
    | some tok =>
      by_cases hfe : fileExists (String.mk tok) = true
      · refine Or.inr (Or.inl ?_)
        show (if fileExists (String.mk tok) = true then
          ((rc + 1 : Nat),
            ("150 File status okay.\r\n250 Requested file action completed.\r\n" : String))
          else (rc, "550 Requested action not taken. File unavailable.\r\n")).2 = _
        rw [if_pos hfe]
      · refine Or.inr (Or.inr (Or.inl ?_))
        show (if fileExists (String.mk tok) = true then
          ((rc + 1 : Nat),
            ("150 File status okay.\r\n250 Requested file action completed.\r\n" : String))
          else (rc, "550 Requested action not taken. File unavailable.\r\n")).2 = _
        rw [if_neg hfe]

theorem type_replies (inp : List Char) :
    handle_type_command inp = "200 Type set to I.\r\n" ∨
    handle_type_command inp = "501 Syntax error in parameter.\r\n" := by
  unfold handle_type_command
  cases matchType inp with
  | none => exact Or.inr rfl
  | some c =>
    by_cases hc : (c == 'I') = true
    · refine Or.inl ?_
      show (if (c == 'I') = true then ("200 Type set to I.\r\n" : String)
        else "501 Syntax error in parameter.\r\n") = _
      rw [if_pos hc]
    · refine Or.inr ?_
      show (if (c == 'I') = true then ("200 Type set to I.\r\n" : String)
        else "501 Syntax error in parameter.\r\n") = _
      rw [if_neg hc]

theorem retr_some_eq (fileExists copyOk : String → Bool) (inp : List Char)
    (rc : Nat) (ps : Bool) :
    handle_retr_command fileExists copyOk inp rc ps = none ∨
    handle_retr_command fileExists copyOk inp rc ps =
      some (handle_retr_command_ok fileExists inp rc ps) := by
  unfold handle_retr_command handle_retr_command_ok
  cases ps with
  | false => exact Or.inr rfl
  | true =>
    cases matchRetr inp with
    | none => exact Or.inr rfl
    | some tok =>
      cases hfe : fileExists (String.mk tok) with
      | false =>
        right
        simp [hfe]
      | true =>
        cases hco : copyOk (String.mk tok) with
        | false =>
          left
          simp [hfe, hco]
        | true =>
          right
          simp [hfe, hco]

theorem retr_const_true (fileExists : String → Bool) (inp : List Char) (rc : Nat)
    (ps : Bool) :
    handle_retr_command fileExists (fun _ => true) inp rc ps =
      some (handle_retr_command_ok fileExists inp rc ps) := by
  unfold handle_retr_command handle_retr_command_ok
  cases ps with
  | false => rfl
  | true =>
    cases matchRetr inp with
    | none => rfl
    | some tok => cases hfe : fileExists (String.mk tok) <;> simp [hfe]

set_option maxHeartbeats 2000000 in
theorem full_cases (fileExists copyOk : String → Bool) (cmd : String) (ua : Bool)
    (rc : Nat) (ps : Bool) :
    handle_ftp_command_full fileExists copyOk cmd ua rc ps = none ∨
    handle_ftp_command_full fileExists copyOk cmd ua rc ps =
      some (handle_ftp_command fileExists cmd ua rc ps) := by
  unfold handle_ftp_command_full handle_ftp_command
  split_ifs <;>
    first
      | (rcases retr_some_eq fileExists copyOk (pyStripList cmd.data ++ CRLF) rc ps
          with hn | hn <;> rw [hn] <;> first | exact Or.inl rfl | exact Or.inr rfl)
      | exact Or.inr rfl

theorem full_some_total (fileExists copyOk : String → Bool) (cmd : String) (ua : Bool)
    (rc : Nat) (ps : Bool) (out : Bool × Nat × Bool × String)
    (h : handle_ftp_command_full fileExists copyOk cmd ua rc ps = some out) :
    out = handle_ftp_command fileExists cmd ua rc ps := by
  rcases full_cases fileExists copyOk cmd ua rc ps with hn | hs
  · rw [hn] at h
    exact Option.noConfusion h
  · rw [hs] at h
    exact (Option.some.inj h).symm

set_option maxHeartbeats 2000000 in
theorem full_const_true_total (fileExists : String → Bool) (cmd : String) (ua : Bool)
    (rc : Nat) (ps : Bool) :
    handle_ftp_command_full fileExists (fun _ => true) cmd ua rc ps =
      some (handle_ftp_command fileExists cmd ua rc ps) := by
  unfold handle_ftp_command_full handle_ftp_command
  split_ifs <;>
    first
      | rw [retr_const_true fileExists (pyStripList cmd.data ++ CRLF) rc ps]
      | rfl

theorem reply_in_catalog (fileExists : String → Bool) (cmd : String) (ua : Bool)
    (rc : Nat) (ps : Bool) :
    (handle_ftp_command fileExists cmd ua rc ps).2.2.2 ∈ replyCatalog ∧
    isReplySequence (handle_ftp_command fileExists cmd ua rc ps).2.2.2 = true := by
  have hcat : ∀ r ∈ replyCatalog, isReplySequence r = true := by decide
  have hmem : (handle_ftp_command fileExists cmd ua rc ps).2.2.2 ∈ replyCatalog := by
    unfold handle_ftp_command
    split
    · split
      · exact (by decide : ("501 Syntax error in parameter.\r\n" : String) ∈ replyCatalog)
      · rcases parse_user_replies (pyStripList cmd.data ++ CRLF) with h | h <;> rw [h] <;>
          split
        · exact (by decide :
            ("331 Guest access OK, send password.\r\n" : String) ∈ replyCatalog)
        · exact (by decide :
            ("331 Guest access OK, send password.\r\n" : String) ∈ replyCatalog)
        · exact (by decide : ("501 Syntax error in parameter.\r\n" : String) ∈ replyCatalog)
        · exact (by decide : ("501 Syntax error in parameter.\r\n" : String) ∈ replyCatalog)
    · split
      · split
        · exact (by decide : ("501 Syntax error in parameter.\r\n" : String) ∈ replyCatalog)
        · rcases pass_replies (pyStripList cmd.data ++ CRLF) ua with h | h | h <;> rw [h]
          · exact (by decide :
              ("503 Bad sequence of commands.\r\n" : String) ∈ replyCatalog)
          · exact (by decide : ("230 Guest login OK.\r\n" : String) ∈ replyCatalog)
          · exact (by decide :
              ("501 Syntax error in parameter.\r\n" : String) ∈ replyCatalog)
      · split
        · exact (by decide : ("215 UNIX Type: L8.\r\n" : String) ∈ replyCatalog)
        · split
          · split
            · exact (by decide :
                ("501 Syntax error in parameter.\r\n" : String) ∈ replyCatalog)
            · rcases type_replies (pyStripList cmd.data ++ CRLF) with h | h <;> rw [h]
              · exact (by decide : ("200 Type set to I.\r\n" : String) ∈ replyCatalog)
              · exact (by decide :
                  ("501 Syntax error in parameter.\r\n" : String) ∈ replyCatalog)
          · split
            · split
              · exact (by decide :
                  ("501 Syntax error in parameter.\r\n" : String) ∈ replyCatalog)
              · rcases port_replies (pyStripList cmd.data ++ CRLF) with h | h <;>
                  rw [h] <;> split
                · exact (by decide :
                    ("200 Port command successful.\r\n" : String) ∈ replyCatalog)
                · exact (by decide :
                    ("200 Port command successful.\r\n" : String) ∈ replyCatalog)
                · exact (by decide :
                    ("501 Syntax error in parameter.\r\n" : String) ∈ replyCatalog)
                · exact (by decide :
                    ("501 Syntax error in parameter.\r\n" : String) ∈ replyCatalog)
            · split
              · split
                · exact (by decide :
                    ("501 Syntax error in parameter.\r\n" : String) ∈ replyCatalog)
                · rcases retr_replies fileExists (pyStripList cmd.data ++ CRLF) rc ps
                    with h | h | h | h <;> rw [h]
                  · exact (by decide :
                      ("503 Bad sequence of commands. Use PORT before RETR.\r\n" : String) ∈
                        replyCatalog)
                  · exact (by decide :
                      ("150 File status okay.\r\n250 Requested file action completed.\r\n" :
                        String) ∈ replyCatalog)
                  · exact (by decide :
                      ("550 Requested action not taken. File unavailable.\r\n" : String) ∈
                        replyCatalog)
                  · exact (by decide :
                      ("501 Syntax error in parameter.\r\n" : String) ∈ replyCatalog)
              · split
                · exact (by decide : ("200 Command OK.\r\n" : String) ∈ replyCatalog)
                · split
                  · exact (by decide : ("200 Command okay.\r\n" : String) ∈ replyCatalog)
                  · exact (by decide :
                      ("500 Syntax error, command unrecognized.\r\n" : String) ∈
                        replyCatalog)
  exact ⟨hmem, hcat _ hmem⟩

/-- C9, counterexample: a RETR naming a path that exists but whose archival
copy fails (for example a directory: the existence check passes and
shutil.copy raises) makes processing abort with an uncaught exception and no
reply at all, refuting the claim that every input line resolves to exactly
one reply and never propagates a fault. -/
theorem C9_counterexample :
    handle_ftp_command_full fsExisting copyNever "RETR existing.txt" true 0 true =
      none ∧
    ∀ out : Bool × Nat × Bool × String,
      handle_ftp_command_full fsExisting copyNever "RETR existing.txt" true 0 true ≠
        some out := by
  have h : handle_ftp_command_full fsExisting copyNever "RETR existing.txt" true 0 true
      = none := by decide
  refine ⟨h, fun out hout => ?_⟩
  rw [h] at hout
  exact Option.noConfusion hout

/-- C9, amended: whenever processing an input line produces a reply, it is
exactly one reply string drawn from the program's fixed catalog, each entry
of which is a well-formed sequence of one or more CR-LF-terminated lines
carrying a three-digit code; and on every input whose RETR archival step
does not fault, processing always produces exactly one such reply.  The one
exception is a RETR whose archival copy of an existing path fails, where the
exception propagates uncaught and no reply is produced. -/
theorem C9_amended (fileExists copyOk : String → Bool) (cmd : String) (ua : Bool)
    (rc : Nat) (ps : Bool) :
    (∀ out : Bool × Nat × Bool × String,
      handle_ftp_command_full fileExists copyOk cmd ua rc ps = some out →
        out.2.2.2 ∈ replyCatalog ∧ isReplySequence out.2.2.2 = true) ∧
    handle_ftp_command_full fileExists (fun _ => true) cmd ua rc ps =
      some (handle_ftp_command fileExists cmd ua rc ps) := by
  refine ⟨fun out hout => ?_, full_const_true_total fileExists cmd ua rc ps⟩
  rw [full_some_total fileExists copyOk cmd ua rc ps out hout]
  exact reply_in_catalog fileExists cmd ua rc ps

/-- C9, witness for the amended theorem: the SYST reply produced under a
fault-free archival model is the catalog entry 215, well-formed, and the
fault-free model produces exactly the reply of the fault-free dispatcher. -/
theorem C9_amended_witness :
    (("215 UNIX Type: L8.\r\n" : String) ∈ replyCatalog ∧
      isReplySequence "215 UNIX Type: L8.\r\n" = true) ∧
    handle_ftp_command_full fsNone copyNever "SYST" false 0 false =
      some (false, 0, false, "215 UNIX Type: L8.\r\n") :=
  ⟨(C9_amended fsNone copyNever "SYST" false 0 false).1
      (false, 0, false, "215 UNIX Type: L8.\r\n") (by decide),
   by decide⟩

/-- C10 (confirmed): the session retains nothing from PORT beyond the boolean
fact that a valid PORT was accepted: two command sequences that differ only
in the octet values of syntactically valid PORT commands produce identical
final states and identical reply lists, for every filesystem and every
initial state. -/
theorem C10_port_octets_opaque (fileExists : String → Bool) (cs₁ cs₂ : List String)
    (ua : Bool) (rc : Nat) (ps : Bool)
    (h : List.Forall₂
      (fun a b => a = b ∨ (isValidPORT a = true ∧ isValidPORT b = true)) cs₁ cs₂) :
    run fileExists cs₁ ua rc ps = run fileExists cs₂ ua rc ps := by
  induction h generalizing ua rc ps with
  | nil => rfl
  | @cons a b l₁ l₂ hab htl ih =>
    rcases hab with rfl | ⟨ha, hb⟩
    · simp only [run]
      rw [ih]
    · simp only [run, validPORT_step fileExists a ua rc ps ha,
        validPORT_step fileExists b ua rc ps hb]
      rw [ih]

/-- C10, witness: a four-command session in which only the PORT octet values
differ produces identical states and replies. -/
theorem C10_witness :
    run fsNone ["USER anon", "PASS x", "PORT 1,2,3,4,5,6", "RETR f"] false 0 false =
      run fsNone ["USER anon", "PASS x", "PORT 250,9,9,9,200,200", "RETR f"]
        false 0 false :=
  C10_port_octets_opaque fsNone _ _ false 0 false
    (.cons (Or.inl rfl) (.cons (Or.inl rfl)
      (.cons (Or.inr ⟨by decide, by decide⟩) (.cons (Or.inl rfl) .nil))))

end FTPserver
